import Mathlib

/-!
Verification of the QCAD ray entity data component, a shallow embedding of
src/src/entity/RRayData.cpp.  The entity composes a shape base (a ray given
by a base point and a direction vector) with a document-attachment wrapper
and exposes the reference-point editing protocol.  Coordinates are embedded
as rational numbers; the base-class helpers that are not part of the given
source (the vector primitive, the ray shape accessors and the document
resolver) are modelled from the specification.
-/

namespace QCadRay

/-- Modelled from the spec: the 2D point and vector value type with
rational coordinates and fuzzy equality.  The source class is RVector,
which is not part of the given source files. -/
structure RVector where
  x : ℚ
  y : ℚ
deriving DecidableEq

/-- Componentwise vector addition, as performed by the RVector sum
operator. -/
def RVector.add (v w : RVector) : RVector := ⟨v.x + w.x, v.y + w.y⟩

/-- Componentwise vector subtraction, as performed by the RVector
difference operator. -/
def RVector.sub (v w : RVector) : RVector := ⟨v.x - w.x, v.y - w.y⟩

instance : Add RVector := ⟨RVector.add⟩

instance : Sub RVector := ⟨RVector.sub⟩

/-- The zero vector, the degenerate direction of an invalid ray. -/
def RVector.zero : RVector := ⟨0, 0⟩

/-- Modelled from the spec: the default point tolerance used by fuzzy
equality (the source constant is RS::PointTolerance, 1.0e-9). -/
def RS.pointTolerance : ℚ := mkRat 1 1000000000

/-- Absolute value of a rational, as computed by qAbs. -/
def ratAbs (q : ℚ) : ℚ := if q < 0 then -q else q

/-- Modelled from the spec: fuzzy equality of two points, true when every
coordinate difference is strictly below the point tolerance.  The source
method is RVector::equalsFuzzy with its default tolerance argument. -/
def RVector.equalsFuzzy (v w : RVector) : Bool :=
  decide (ratAbs (v.x - w.x) < RS.pointTolerance) &&
    decide (ratAbs (v.y - w.y) < RS.pointTolerance)

/-- Modelled from the spec: the projection rendering hint enum
RS::ProjectionRenderingHint, opaque to this component
(getReferencePoints ignores it). -/
inductive ProjectionRenderingHint where
  | renderTop
  | renderSide
  | renderFront
deriving DecidableEq

/-- Modelled from the spec: the document context, which supplies the
linetype resolved from the layer default of the entity being attached.
Only the resolver consumed by the copy constructor is represented. -/
structure RDocument where
  linetypeByLayer : ℤ
deriving DecidableEq

/-- Modelled from the spec: RDocument::getLinetypeByLayerId, the
derived-property resolver queried at attachment time. -/
def RDocument.getLinetypeByLayerId (d : RDocument) : ℤ := d.linetypeByLayer

/-- The ray entity data: the shape fields basePoint and directionVector
inherited from the RRay shape base, plus the document-attachment fields
of REntityData (a weak document reference and the resolved property
fields, represented by layerId and linetypeId). -/
structure RRayData where
  basePoint : RVector
  directionVector : RVector
  layerId : ℤ
  linetypeId : ℤ
  document : Option RDocument
deriving DecidableEq

/-- Modelled from the spec: RRay::getSecondPoint, the derived drag handle
at basePoint + directionVector (not a geometric endpoint). -/
def RRayData.getSecondPoint (r : RRayData) : RVector :=
  r.basePoint + r.directionVector

/-- Modelled from the spec: RRay::setSecondPoint, which updates the
direction so that basePoint + directionVector reproduces the given
point. -/
def RRayData.setSecondPoint (r : RRayData) (p : RVector) : RRayData :=
  { r with directionVector := p - r.basePoint }

/-- Embedding of the document-attaching copy constructor
RRayData::RRayData(RDocument*, const RRayData&): the member assignment
copies every field from the source, the document member is then set to
the target document, and only when that document is non-null is
linetypeId overwritten with the value resolved from the target document
(RRayData.cpp lines 25-32). -/
def RRayData.attachCopy (document : Option RDocument) (data : RRayData) :
    RRayData :=
  let c := { data with document := document }
  match document with
  | some d => { c with linetypeId := d.getLinetypeByLayerId }
  | none => c

/-- Embedding of RRayData::getReferencePoints (RRayData.cpp lines 42-49):
the rendering hint is unused and the result is the two-element list of
the base point followed by the second point. -/
def RRayData.getReferencePoints (r : RRayData)
    (_hint : ProjectionRenderingHint) : List RVector :=
  [r.basePoint, r.getSecondPoint]

/-- The state after the first branch of moveReferencePoint: when the
reference point fuzzy-equals the base point, the base point has been
replaced by the target point, otherwise the state is unchanged
(RRayData.cpp lines 76-79). -/
def RRayData.afterBaseBranch (r : RRayData)
    (referencePoint targetPoint : RVector) : RRayData :=
  if referencePoint.equalsFuzzy r.basePoint then
    { r with basePoint := targetPoint }
  else r

/-- Embedding of RRayData::moveReferencePoint (RRayData.cpp lines 73-85):
the base-point branch runs first; the second-point branch then compares
against the second point of the possibly already-updated state and, on a
match, sets the second point to the target.  The returned flag is true
when at least one branch matched. -/
def RRayData.moveReferencePoint (r : RRayData)
    (referencePoint targetPoint : RVector) : RRayData × Bool :=
  let r1 := r.afterBaseBranch referencePoint targetPoint
  let r2 := if referencePoint.equalsFuzzy r1.getSecondPoint then
      r1.setSecondPoint targetPoint
    else r1
  (r2, referencePoint.equalsFuzzy r.basePoint ||
    referencePoint.equalsFuzzy r1.getSecondPoint)

/-- Unfolding lemma for vector addition. -/
theorem RVector.add_def (v w : RVector) : v + w = ⟨v.x + w.x, v.y + w.y⟩ :=
  rfl

/-- Unfolding lemma for vector subtraction. -/
theorem RVector.sub_def (v w : RVector) : v - w = ⟨v.x - w.x, v.y - w.y⟩ :=
  rfl

/-- Two vectors are equal exactly when their coordinates agree. -/
theorem RVector.eq_iff (v w : RVector) : v = w ↔ v.x = w.x ∧ v.y = w.y := by
  cases v
  cases w
  simp

/-- Adding the zero vector is the identity. -/
theorem RVector.add_zero_vec (v : RVector) : v + RVector.zero = v := by
  cases v
  simp [RVector.add_def, RVector.zero]

/-- Adding the difference toward a target lands on the target. -/
theorem RVector.add_sub_cancel_vec (v w : RVector) : v + (w - v) = w := by
  cases v
  cases w
  simp [RVector.add_def, RVector.sub_def]

/-- A point moved by a nonzero vector differs from the original point. -/
theorem RVector.ne_add_of_ne_zero (b d : RVector) (hd : d ≠ RVector.zero) :
    b ≠ b + d := by
  intro h
  apply hd
  rw [RVector.eq_iff] at h
  rw [RVector.add_def] at h
  obtain ⟨hx, hy⟩ := h
  rw [RVector.eq_iff]
  simp only [RVector.zero]
  constructor
  · simpa using (congrArg (fun t => t - b.x) hx).symm
  · simpa using (congrArg (fun t => t - b.y) hy).symm

/-- Every point fuzzy-equals itself. -/
theorem RVector.equalsFuzzy_self (v : RVector) :
    v.equalsFuzzy v = true := by
  simp only [RVector.equalsFuzzy, RS.pointTolerance, sub_self]
  norm_num [ratAbs]

/-- The second-point branch of moveReferencePoint never changes the base
point, so the final base point is the one left by the base-point
branch. -/
theorem RRayData.moveReferencePoint_fst_basePoint (r : RRayData)
    (ref tgt : RVector) :
    (r.moveReferencePoint ref tgt).1.basePoint =
      (r.afterBaseBranch ref tgt).basePoint := by
  unfold RRayData.moveReferencePoint
  dsimp only
  split <;> rfl

/-- A sample document whose layer default resolves to linetype 42. -/
def docD1 : RDocument := ⟨42⟩

/-- A sample document whose layer default resolves to linetype 7. -/
def docD2 : RDocument := ⟨7⟩

/-- A sample unattached ray from the origin along the positive x axis,
with its linetype resolved to 42 (as in document docD1). -/
def srcRay : RRayData := ⟨⟨0, 0⟩, ⟨1, 0⟩, 1, 42, none⟩

/-- A sample ray identical to srcRay except for its resolved linetype. -/
def srcRayAlt : RRayData := ⟨⟨0, 0⟩, ⟨1, 0⟩, 1, 7, none⟩

/-- A sample degenerate ray with a zero direction vector. -/
def degRay : RRayData := ⟨⟨2, 3⟩, ⟨0, 0⟩, 1, 42, none⟩

/-- Claim C1: the document-attaching copy constructor copies the geometric
and property fields from the source and then overwrites linetypeId with
the value resolved from the target document via getLinetypeByLayerId,
ignoring the value resolved in the source; in particular when the source
resolved to X and the target document resolves to Y with Y different from
X, the copy carries Y. -/
theorem attachCopy_resolves_linetype_from_target (d : RDocument)
    (src : RRayData) (X Y : ℤ) (hX : src.linetypeId = X)
    (hY : d.getLinetypeByLayerId = Y) (hne : Y ≠ X) :
    (RRayData.attachCopy (some d) src).basePoint = src.basePoint ∧
    (RRayData.attachCopy (some d) src).directionVector =
      src.directionVector ∧
    (RRayData.attachCopy (some d) src).layerId = src.layerId ∧
    (RRayData.attachCopy (some d) src).linetypeId = Y ∧
    (RRayData.attachCopy (some d) src).linetypeId ≠ X := by
  subst hX
  refine ⟨rfl, rfl, rfl, ?_, ?_⟩
  · simpa [RRayData.attachCopy] using hY
  · simpa [RRayData.attachCopy, hY] using hne

/-- Witness for C1: srcRay resolved to 42; attaching a copy to docD2,
whose layer default resolves to 7, yields linetypeId 7, not 42. -/
theorem attachCopy_resolves_linetype_from_target_witness :
    (RRayData.attachCopy (some docD2) srcRay).linetypeId = 7 ∧
    (RRayData.attachCopy (some docD2) srcRay).linetypeId ≠ 42 :=
  ⟨(attachCopy_resolves_linetype_from_target docD2 srcRay 42 7 rfl rfl
      (by decide)).2.2.2.1,
   (attachCopy_resolves_linetype_from_target docD2 srcRay 42 7 rfl rfl
      (by decide)).2.2.2.2⟩

/-- Claim C2: getReferencePoints returns exactly the two points basePoint
and basePoint + directionVector in that order, for every rendering hint
(the hint has no effect); the list always has length two, and when the
direction is nonzero the two points are distinct. -/
theorem getReferencePoints_spec (r : RRayData)
    (hint hint2 : ProjectionRenderingHint) :
    r.getReferencePoints hint =
      [r.basePoint, r.basePoint + r.directionVector] ∧
    (r.getReferencePoints hint).length = 2 ∧
    r.getReferencePoints hint = r.getReferencePoints hint2 ∧
    (r.directionVector ≠ RVector.zero →
      r.basePoint ≠ r.basePoint + r.directionVector) := by
  refine ⟨rfl, rfl, rfl, ?_⟩
  intro hd
  exact RVector.ne_add_of_ne_zero r.basePoint r.directionVector hd

/-- Witness for C2: on srcRay the reference points are the origin and the
unit point on the x axis, and since the direction is nonzero the two
points are distinct. -/
theorem getReferencePoints_spec_witness :
    srcRay.getReferencePoints ProjectionRenderingHint.renderTop =
      [srcRay.basePoint, srcRay.basePoint + srcRay.directionVector] ∧
    srcRay.basePoint ≠ srcRay.basePoint + srcRay.directionVector :=
  ⟨(getReferencePoints_spec srcRay ProjectionRenderingHint.renderTop
      ProjectionRenderingHint.renderSide).1,
   (getReferencePoints_spec srcRay ProjectionRenderingHint.renderTop
      ProjectionRenderingHint.renderSide).2.2.2 (by decide)⟩

/-- Counterexample to claim C6 as stated: with a null document the copy
constructor does not leave linetypeId at a variant default; the member
assignment copies it from the source, so two sources differing only in
their resolved linetype produce copies with different linetypeId values
(42 and 7), which no single variant default could equal. -/
theorem attachCopy_null_document_counterexample :
    (RRayData.attachCopy none srcRay).linetypeId = 42 ∧
    (RRayData.attachCopy none srcRayAlt).linetypeId = 7 ∧
    (RRayData.attachCopy none srcRay).linetypeId ≠
      (RRayData.attachCopy none srcRayAlt).linetypeId := by
  refine ⟨rfl, rfl, ?_⟩
  decide

/-- Claim C6 amended: with a null document the copy constructor copies the
derived properties (linetypeId, layerId) and the geometric fields from
the source entity, stores the null document reference, and signals no
error: construction succeeds on every path. -/
theorem attachCopy_null_document_copies_source (src : RRayData) :
    (RRayData.attachCopy none src).linetypeId = src.linetypeId ∧
    (RRayData.attachCopy none src).layerId = src.layerId ∧
    (RRayData.attachCopy none src).basePoint = src.basePoint ∧
    (RRayData.attachCopy none src).directionVector = src.directionVector ∧
    (RRayData.attachCopy none src).document = none :=
  ⟨rfl, rfl, rfl, rfl, rfl⟩

/-- Claim C3: when the reference point fuzzy-equals the base point,
moveReferencePoint returns true and sets the base point to the target
point, so the first reference point afterwards is exactly the target. -/
theorem moveReferencePoint_base_match (r : RRayData)
    (ref tgt : RVector) (hint : ProjectionRenderingHint)
    (h : ref.equalsFuzzy r.basePoint = true) :
    (r.moveReferencePoint ref tgt).2 = true ∧
    (r.moveReferencePoint ref tgt).1.basePoint = tgt ∧
    ((r.moveReferencePoint ref tgt).1.getReferencePoints hint).head? =
      some tgt := by
  have hbp : (r.moveReferencePoint ref tgt).1.basePoint = tgt := by
    rw [RRayData.moveReferencePoint_fst_basePoint]
    simp [RRayData.afterBaseBranch, h]
  refine ⟨?_, hbp, ?_⟩
  · simp [RRayData.moveReferencePoint, h]
  · simp [RRayData.getReferencePoints, hbp]

/-- Witness for C3: grabbing the base point of srcRay at the origin and
dragging it to the point with coordinates 3 and 4 succeeds and moves the
base point there. -/
theorem moveReferencePoint_base_match_witness :
    (srcRay.moveReferencePoint ⟨0, 0⟩ ⟨3, 4⟩).2 = true ∧
    (srcRay.moveReferencePoint ⟨0, 0⟩ ⟨3, 4⟩).1.basePoint = ⟨3, 4⟩ :=
  ⟨(moveReferencePoint_base_match srcRay ⟨0, 0⟩ ⟨3, 4⟩
      ProjectionRenderingHint.renderTop (by with_unfolding_all decide)).1,
   (moveReferencePoint_base_match srcRay ⟨0, 0⟩ ⟨3, 4⟩
      ProjectionRenderingHint.renderTop (by with_unfolding_all decide)).2.1⟩

/-- Claim C4: the second-point branch is evaluated independently of the
base-point branch, against the second point of the state left by the
base-point branch (afterBaseBranch); when it matches, the result is that
state with its second point set to the target, so the new base point plus
the new direction reproduces the target, and the call returns true. -/
theorem moveReferencePoint_second_match (r : RRayData) (ref tgt : RVector)
    (h2 : ref.equalsFuzzy (r.afterBaseBranch ref tgt).getSecondPoint =
      true) :
    (r.moveReferencePoint ref tgt).2 = true ∧
    (r.moveReferencePoint ref tgt).1 =
      (r.afterBaseBranch ref tgt).setSecondPoint tgt ∧
    (r.moveReferencePoint ref tgt).1.basePoint +
      (r.moveReferencePoint ref tgt).1.directionVector = tgt := by
  refine ⟨?_, ?_, ?_⟩
  · simp [RRayData.moveReferencePoint, h2]
  · simp [RRayData.moveReferencePoint, h2]
  · simp only [RRayData.moveReferencePoint, h2, if_pos]
    simp only [RRayData.setSecondPoint]
    exact RVector.add_sub_cancel_vec _ tgt

/-- Witness for C4: the concrete scenario of the claim; on srcRay, with
base point at the origin and direction along the x axis, grabbing the
second point and dragging it to the point with coordinates 5 and 5
returns true and leaves base point plus direction equal to that target
(here the base point is unchanged, so the direction itself becomes that
vector). -/
theorem moveReferencePoint_second_match_witness :
    (srcRay.moveReferencePoint ⟨1, 0⟩ ⟨5, 5⟩).2 = true ∧
    (srcRay.moveReferencePoint ⟨1, 0⟩ ⟨5, 5⟩).1.basePoint +
      (srcRay.moveReferencePoint ⟨1, 0⟩ ⟨5, 5⟩).1.directionVector =
      ⟨5, 5⟩ :=
  ⟨(moveReferencePoint_second_match srcRay ⟨1, 0⟩ ⟨5, 5⟩
      (by with_unfolding_all decide)).1,
   (moveReferencePoint_second_match srcRay ⟨1, 0⟩ ⟨5, 5⟩
      (by with_unfolding_all decide)).2.2⟩

/-- Claim C5: when the reference point fuzzy-matches neither the base
point nor the current second point, moveReferencePoint returns false and
leaves the entity completely unchanged; and in general the returned flag
is true exactly when at least one of the two branches matched. -/
theorem moveReferencePoint_no_match (r : RRayData) (ref tgt : RVector) :
    (ref.equalsFuzzy r.basePoint = false →
      ref.equalsFuzzy r.getSecondPoint = false →
      r.moveReferencePoint ref tgt = (r, false)) ∧
    ((r.moveReferencePoint ref tgt).2 = true ↔
      (ref.equalsFuzzy r.basePoint = true ∨
        ref.equalsFuzzy (r.afterBaseBranch ref tgt).getSecondPoint =
          true)) := by
  constructor
  · intro h1 h2
    have hbranch : r.afterBaseBranch ref tgt = r := by
      simp [RRayData.afterBaseBranch, h1]
    simp [RRayData.moveReferencePoint, hbranch, h1, h2]
  · simp [RRayData.moveReferencePoint]

/-- Witness for C5: on srcRay a reference point far from both handles is
rejected with false, and the entity is returned unchanged. -/
theorem moveReferencePoint_no_match_witness :
    srcRay.moveReferencePoint ⟨10, 10⟩ ⟨1, 1⟩ = (srcRay, false) :=
  (moveReferencePoint_no_match srcRay ⟨10, 10⟩ ⟨1, 1⟩).1
    (by with_unfolding_all decide) (by with_unfolding_all decide)

/-- Claim C7: for a ray with a zero-length direction the reference points
are two equal points, and moveReferencePoint called with that shared
point returns true and updates the base point to the target; both
operations are total functions of their inputs, so no geometric input
can raise. -/
theorem degenerate_ray_behaviour (r : RRayData) (tgt : RVector)
    (hint : ProjectionRenderingHint)
    (hdir : r.directionVector = RVector.zero) :
    r.getReferencePoints hint = [r.basePoint, r.basePoint] ∧
    (r.moveReferencePoint r.basePoint tgt).2 = true ∧
    (r.moveReferencePoint r.basePoint tgt).1.basePoint = tgt := by
  refine ⟨?_, ?_, ?_⟩
  · simp [RRayData.getReferencePoints, RRayData.getSecondPoint, hdir,
      RVector.add_zero_vec]
  · simp [RRayData.moveReferencePoint, RVector.equalsFuzzy_self]
  · rw [RRayData.moveReferencePoint_fst_basePoint]
    simp [RRayData.afterBaseBranch, RVector.equalsFuzzy_self]

/-- Witness for C7: on the degenerate ray degRay both reference points
coincide at its base point, and moving that shared point succeeds and
relocates the base point. -/
theorem degenerate_ray_behaviour_witness :
    degRay.getReferencePoints ProjectionRenderingHint.renderTop =
      [degRay.basePoint, degRay.basePoint] ∧
    (degRay.moveReferencePoint degRay.basePoint ⟨9, 9⟩).2 = true ∧
    (degRay.moveReferencePoint degRay.basePoint ⟨9, 9⟩).1.basePoint =
      ⟨9, 9⟩ :=
  degenerate_ray_behaviour degRay ⟨9, 9⟩ ProjectionRenderingHint.renderTop
    rfl

/-- Claim C8: getReferencePoints is a pure query; in this embedding it
returns only the list and no modified entity, and its result depends
only on the geometric fields, so two calls on the same data with no
intervening mutation, under any rendering hints, yield identical
sequences. -/
theorem getReferencePoints_pure (r s : RRayData)
    (hint hint2 : ProjectionRenderingHint)
    (hb : r.basePoint = s.basePoint)
    (hd : r.directionVector = s.directionVector) :
    r.getReferencePoints hint = s.getReferencePoints hint2 := by
  simp [RRayData.getReferencePoints, RRayData.getSecondPoint, hb, hd]

/-- Witness for C8: two calls on srcRay with different hints return the
same sequence. -/
theorem getReferencePoints_pure_witness :
    srcRay.getReferencePoints ProjectionRenderingHint.renderTop =
      srcRay.getReferencePoints ProjectionRenderingHint.renderSide :=
  getReferencePoints_pure srcRay srcRay ProjectionRenderingHint.renderTop
    ProjectionRenderingHint.renderSide rfl rfl

/-- Claim C9: a single moveReferencePoint call aimed at the base point can
also rewrite the direction: on the ray with base point at the origin and
unit direction along the x axis, moving the base point to its mirror
point along the direction makes the recomputed second point equal the
grabbed point, so the second branch fires as well and the valid ray
degenerates to a zero-direction ray in one call. -/
theorem move_base_can_degenerate :
    srcRay.directionVector ≠ RVector.zero ∧
    (srcRay.moveReferencePoint ⟨0, 0⟩ ⟨-1, 0⟩).2 = true ∧
    (srcRay.moveReferencePoint ⟨0, 0⟩ ⟨-1, 0⟩).1.basePoint = ⟨-1, 0⟩ ∧
    (srcRay.moveReferencePoint ⟨0, 0⟩ ⟨-1, 0⟩).1.directionVector =
      RVector.zero := by
  with_unfolding_all decide

/-- Claim C10: when the reference point fuzzy-matches the current second
point but not the base point, moveReferencePoint returns true and
mutates only the direction, by setting the second point to the target;
the base point and the document-scoped fields are unchanged. -/
theorem moveReferencePoint_second_only (r : RRayData) (ref tgt : RVector)
    (h1 : ref.equalsFuzzy r.basePoint = false)
    (h2 : ref.equalsFuzzy r.getSecondPoint = true) :
    (r.moveReferencePoint ref tgt).2 = true ∧
    (r.moveReferencePoint ref tgt).1.basePoint = r.basePoint ∧
    (r.moveReferencePoint ref tgt).1.directionVector =
      tgt - r.basePoint ∧
    (r.moveReferencePoint ref tgt).1.layerId = r.layerId ∧
    (r.moveReferencePoint ref tgt).1.linetypeId = r.linetypeId ∧
    (r.moveReferencePoint ref tgt).1.document = r.document := by
  have hbranch : r.afterBaseBranch ref tgt = r := by
    simp [RRayData.afterBaseBranch, h1]
  simp [RRayData.moveReferencePoint, RRayData.setSecondPoint, hbranch, h1,
    h2]

/-- Witness for C10: on srcRay, grabbing the second point and dragging it
far away keeps the base point at the origin and rewrites only the
direction. -/
theorem moveReferencePoint_second_only_witness :
    (srcRay.moveReferencePoint ⟨1, 0⟩ ⟨5, 5⟩).1.basePoint =
      srcRay.basePoint ∧
    (srcRay.moveReferencePoint ⟨1, 0⟩ ⟨5, 5⟩).1.directionVector =
      ⟨5, 5⟩ - srcRay.basePoint :=
  ⟨(moveReferencePoint_second_only srcRay ⟨1, 0⟩ ⟨5, 5⟩
      (by with_unfolding_all decide) (by with_unfolding_all decide)).2.1,
   (moveReferencePoint_second_only srcRay ⟨1, 0⟩ ⟨5, 5⟩
      (by with_unfolding_all decide)
      (by with_unfolding_all decide)).2.2.1⟩

end QCadRay
